import Mathlib

/-!
Shallow embedding of src/demo.py.

The script constructs an ElevenLabs client, issues one text-to-speech
conversion request with four literal arguments, and streams the returned
audio chunks to the file output.mp3, skipping empty (falsy) chunks:

    audio_stream = client.text_to_speech.convert(
        voice_id="JBFqnCBsd6RMkjVDRZzb",
        model_id="eleven_multilingual_v2",
        output_format="mp3_44100_128",
        text="The first move is what sets everything in motion.")
    with open("output.mp3", "wb") as f:
        for chunk in audio_stream:
            if chunk:
                f.write(chunk)
    print("Audio saved as output.mp3")

A chunk is a byte block, modelled as a list of naturals. The remote
stream either yields a finite list of chunks and ends normally, or
yields a prefix and then raises; both are captured by StreamOutcome.
The run of the script is modelled as a trace of observable events
(open, write, close, print, raise) interpreted over a filesystem state,
mirroring exactly what each Python statement does: open with mode "wb"
truncates, the with-statement closes the handle on every exit path, and
print runs only after the loop completes normally.
-/

/-- A binary chunk: one byte block from the streamed response. -/
abbrev Chunk := List Nat

/-- Python truthiness of a bytes object: true exactly when non-empty
(the test made by the line "if chunk:" in the script). -/
def chunkTruthy (c : Chunk) : Bool := !c.isEmpty

/-- The request value received by the remote service: the four fields
passed to client.text_to_speech.convert. -/
structure SynthesisRequest where
  voice_id : String
  model_id : String
  output_format : String
  text : String
deriving DecidableEq, Repr

namespace text_to_speech

/-- The convert call records its four arguments verbatim in the issued
request; the SDK boundary applies no transformation to them. -/
def convert (voice_id : String) (model_id : String)
    (output_format : String) (text : String) : SynthesisRequest :=
  { voice_id := voice_id, model_id := model_id,
    output_format := output_format, text := text }

end text_to_speech

/-- The one request the script issues, with the four literals of
src/demo.py lines 8-11. -/
def scriptRequest : SynthesisRequest :=
  text_to_speech.convert "JBFqnCBsd6RMkjVDRZzb" "eleven_multilingual_v2"
    "mp3_44100_128" "The first move is what sets everything in motion."

/-- The fixed relative output path of line 14. -/
def outputPath : String := "output.mp3"

/-- The fixed confirmation string of line 19. -/
def confirmMessage : String := "Audio saved as output.mp3"

/-- How the remote stream behaves in one run: it either yields all its
chunks and ends normally, or yields a prefix of chunks and then raises. -/
inductive StreamOutcome where
  | ok (chunks : List Chunk)
  | failAfter (chunks : List Chunk)
deriving DecidableEq

/-- The chunks actually delivered before the stream ends or raises. -/
def StreamOutcome.chunks : StreamOutcome → List Chunk
  | .ok cs => cs
  | .failAfter cs => cs

/-- Observable events of a run of the script. -/
inductive Event where
  | openFile (path : String)
  | write (path : String) (bytes : Chunk)
  | closeFile (path : String)
  | print (msg : String)
  | raise
deriving DecidableEq

/-- The events produced by the body of the write loop
(for chunk in audio_stream: if chunk: f.write(chunk)), one iteration
per delivered chunk, a write exactly when the chunk is truthy. -/
def loopWrites : List Chunk → List Event
  | [] => []
  | c :: rest =>
      (if chunkTruthy c then [Event.write outputPath c] else []) ++ loopWrites rest

/-- The full event trace of the script for a given stream outcome.
On normal completion the with-block closes the file and then print runs.
When the stream raises mid-iteration, the with-block still closes the
file during unwinding, and the error propagates: no print happens. -/
def runTrace : StreamOutcome → List Event
  | .ok cs =>
      Event.openFile outputPath ::
        (loopWrites cs ++ [Event.closeFile outputPath, Event.print confirmMessage])
  | .failAfter cs =>
      Event.openFile outputPath ::
        (loopWrites cs ++ [Event.raise, Event.closeFile outputPath])

/-- System state observed by a run: the filesystem (a partial map from
path to byte content), the lines printed to standard output, the open
file handles, and whether an uncaught failure has occurred (the process
then exits with non-zero status). -/
structure SysState where
  fs : String → Option (List Nat)
  stdout : List String
  openFiles : List String
  failed : Bool

/-- Effect of one event on the system state. Opening with mode "wb"
creates or truncates the file; a write appends the bytes to the file at
its path; closing removes the handle; print appends one line; raise
marks the run failed. -/
def step (s : SysState) (e : Event) : SysState :=
  match e with
  | .openFile p =>
      { s with fs := fun q => if q = p then some [] else s.fs q,
               openFiles := p :: s.openFiles }
  | .write p bytes =>
      { s with fs := fun q =>
          if q = p then (s.fs p).map (fun old => old ++ bytes) else s.fs q }
  | .closeFile p => { s with openFiles := s.openFiles.erase p }
  | .print m => { s with stdout := s.stdout ++ [m] }
  | .raise => { s with failed := true }

/-- State at process start: the preexisting filesystem, nothing printed,
no open handles, no failure. -/
def initState (fs0 : String → Option (List Nat)) : SysState :=
  { fs := fs0, stdout := [], openFiles := [], failed := false }

/-- Running the script from an initial filesystem under a given stream
outcome: fold the trace of events over the initial state. -/
def runScript (fs0 : String → Option (List Nat)) (o : StreamOutcome) : SysState :=
  (runTrace o).foldl step (initState fs0)

/-- Concatenation of exactly the non-empty chunks, in delivery order:
the spec-side description of the output file content. -/
def nonEmptyConcat (cs : List Chunk) : List Nat :=
  (cs.filter chunkTruthy).flatten

/-- Recogniser for write events, extracting the written bytes. -/
def writeBytesOf : Event → Option Chunk
  | .write _ b => some b
  | _ => none

/-- Recogniser for print events. -/
def isPrintEvent : Event → Bool
  | .print _ => true
  | _ => false

/-- Recogniser for the event closing the output file. -/
def isCloseEvent : Event → Bool
  | .closeFile p => p == outputPath
  | _ => false

/-- An empty filesystem, used to instantiate universally quantified
initial states at concrete inputs. -/
def fsEmpty : String → Option (List Nat) := fun _ => none

/-! Helper lemmas characterising the write loop and the full run. -/

lemma nonEmptyConcat_nil : nonEmptyConcat [] = [] := rfl

lemma nonEmptyConcat_cons (c : Chunk) (cs : List Chunk) :
    nonEmptyConcat (c :: cs)
      = if chunkTruthy c then c ++ nonEmptyConcat cs else nonEmptyConcat cs := by
  by_cases h : chunkTruthy c <;> simp [nonEmptyConcat, List.filter_cons, h]

lemma foldl_loopWrites_fs (cs : List Chunk) (s : SysState) (q : String) :
    ((loopWrites cs).foldl step s).fs q
      = if q = outputPath then
          (s.fs outputPath).map (fun old => old ++ nonEmptyConcat cs)
        else s.fs q := by
  induction cs generalizing s with
  | nil =>
      simp only [loopWrites, List.foldl_nil, nonEmptyConcat_nil]
      by_cases hq : q = outputPath
      · rw [if_pos hq, hq]
        cases s.fs outputPath <;> simp
      · rw [if_neg hq]
  | cons c rest ih =>
      by_cases hc : chunkTruthy c
      · simp only [loopWrites, if_pos hc, List.singleton_append, List.foldl_cons]
        rw [ih, nonEmptyConcat_cons, if_pos hc]
        by_cases hq : q = outputPath
        · rw [if_pos hq, if_pos hq]
          simp only [step]
          cases s.fs outputPath <;> simp [List.append_assoc]
        · rw [if_neg hq, if_neg hq]
          simp only [step]
          simp [hq]
      · simp only [loopWrites, if_neg hc, List.nil_append]
        rw [ih, nonEmptyConcat_cons, if_neg hc]

lemma foldl_loopWrites_stdout (cs : List Chunk) (s : SysState) :
    ((loopWrites cs).foldl step s).stdout = s.stdout := by
  induction cs generalizing s with
  | nil => rfl
  | cons c rest ih =>
      by_cases hc : chunkTruthy c
      · simp only [loopWrites, if_pos hc, List.singleton_append, List.foldl_cons]
        rw [ih]
        rfl
      · simp only [loopWrites, if_neg hc, List.nil_append]
        exact ih s

lemma foldl_loopWrites_openFiles (cs : List Chunk) (s : SysState) :
    ((loopWrites cs).foldl step s).openFiles = s.openFiles := by
  induction cs generalizing s with
  | nil => rfl
  | cons c rest ih =>
      by_cases hc : chunkTruthy c
      · simp only [loopWrites, if_pos hc, List.singleton_append, List.foldl_cons]
        rw [ih]
        rfl
      · simp only [loopWrites, if_neg hc, List.nil_append]
        exact ih s

lemma foldl_loopWrites_failed (cs : List Chunk) (s : SysState) :
    ((loopWrites cs).foldl step s).failed = s.failed := by
  induction cs generalizing s with
  | nil => rfl
  | cons c rest ih =>
      by_cases hc : chunkTruthy c
      · simp only [loopWrites, if_pos hc, List.singleton_append, List.foldl_cons]
        rw [ih]
        rfl
      · simp only [loopWrites, if_neg hc, List.nil_append]
        exact ih s

lemma step_openFile_fs (s : SysState) (p q : String) :
    (step s (Event.openFile p)).fs q = if q = p then some [] else s.fs q := rfl

lemma step_openFile_stdout (s : SysState) (p : String) :
    (step s (Event.openFile p)).stdout = s.stdout := rfl

lemma step_openFile_openFiles (s : SysState) (p : String) :
    (step s (Event.openFile p)).openFiles = p :: s.openFiles := rfl

lemma step_openFile_failed (s : SysState) (p : String) :
    (step s (Event.openFile p)).failed = s.failed := rfl

lemma step_closeFile_fs (s : SysState) (p : String) :
    (step s (Event.closeFile p)).fs = s.fs := rfl

lemma step_closeFile_stdout (s : SysState) (p : String) :
    (step s (Event.closeFile p)).stdout = s.stdout := rfl

lemma step_closeFile_openFiles (s : SysState) (p : String) :
    (step s (Event.closeFile p)).openFiles = s.openFiles.erase p := rfl

lemma step_closeFile_failed (s : SysState) (p : String) :
    (step s (Event.closeFile p)).failed = s.failed := rfl

lemma step_print_fs (s : SysState) (m : String) :
    (step s (Event.print m)).fs = s.fs := rfl

lemma step_print_stdout (s : SysState) (m : String) :
    (step s (Event.print m)).stdout = s.stdout ++ [m] := rfl

lemma step_print_openFiles (s : SysState) (m : String) :
    (step s (Event.print m)).openFiles = s.openFiles := rfl

lemma step_print_failed (s : SysState) (m : String) :
    (step s (Event.print m)).failed = s.failed := rfl

lemma step_raise_fs (s : SysState) : (step s Event.raise).fs = s.fs := rfl

lemma step_raise_stdout (s : SysState) : (step s Event.raise).stdout = s.stdout := rfl

lemma step_raise_openFiles (s : SysState) :
    (step s Event.raise).openFiles = s.openFiles := rfl

lemma step_raise_failed (s : SysState) : (step s Event.raise).failed = true := rfl

lemma initState_fs (fs0 : String → Option (List Nat)) : (initState fs0).fs = fs0 := rfl

lemma initState_stdout (fs0 : String → Option (List Nat)) :
    (initState fs0).stdout = [] := rfl

lemma initState_openFiles (fs0 : String → Option (List Nat)) :
    (initState fs0).openFiles = [] := rfl

lemma initState_failed (fs0 : String → Option (List Nat)) :
    (initState fs0).failed = false := rfl

lemma runScript_fs (fs0 : String → Option (List Nat)) (o : StreamOutcome) (q : String) :
    (runScript fs0 o).fs q
      = if q = outputPath then some (nonEmptyConcat o.chunks) else fs0 q := by
  cases o with
  | ok cs =>
      simp only [runScript, runTrace, StreamOutcome.chunks, List.foldl_cons,
        List.foldl_append, List.foldl_nil, step_closeFile_fs, step_print_fs]
      rw [foldl_loopWrites_fs]
      simp only [step_openFile_fs, initState_fs]
      by_cases hq : q = outputPath <;> simp [hq]
  | failAfter cs =>
      simp only [runScript, runTrace, StreamOutcome.chunks, List.foldl_cons,
        List.foldl_append, List.foldl_nil, step_closeFile_fs, step_raise_fs]
      rw [foldl_loopWrites_fs]
      simp only [step_openFile_fs, initState_fs]
      by_cases hq : q = outputPath <;> simp [hq]

lemma runScript_stdout_ok (fs0 : String → Option (List Nat)) (cs : List Chunk) :
    (runScript fs0 (StreamOutcome.ok cs)).stdout = [confirmMessage] := by
  simp only [runScript, runTrace, List.foldl_cons, List.foldl_append, List.foldl_nil,
    step_print_stdout, step_closeFile_stdout, foldl_loopWrites_stdout,
    step_openFile_stdout, initState_stdout, List.nil_append]

lemma runScript_stdout_fail (fs0 : String → Option (List Nat)) (cs : List Chunk) :
    (runScript fs0 (StreamOutcome.failAfter cs)).stdout = [] := by
  simp only [runScript, runTrace, List.foldl_cons, List.foldl_append, List.foldl_nil,
    step_closeFile_stdout, step_raise_stdout, foldl_loopWrites_stdout,
    step_openFile_stdout, initState_stdout]

lemma runScript_openFiles (fs0 : String → Option (List Nat)) (o : StreamOutcome) :
    (runScript fs0 o).openFiles = [] := by
  cases o with
  | ok cs =>
      simp only [runScript, runTrace, List.foldl_cons, List.foldl_append, List.foldl_nil,
        step_print_openFiles, step_closeFile_openFiles, foldl_loopWrites_openFiles,
        step_openFile_openFiles, initState_openFiles]
      simp [List.erase_cons_head]
  | failAfter cs =>
      simp only [runScript, runTrace, List.foldl_cons, List.foldl_append, List.foldl_nil,
        step_closeFile_openFiles, step_raise_openFiles, foldl_loopWrites_openFiles,
        step_openFile_openFiles, initState_openFiles]
      simp [List.erase_cons_head]

lemma runScript_failed_ok (fs0 : String → Option (List Nat)) (cs : List Chunk) :
    (runScript fs0 (StreamOutcome.ok cs)).failed = false := by
  simp only [runScript, runTrace, List.foldl_cons, List.foldl_append, List.foldl_nil,
    step_print_failed, step_closeFile_failed, foldl_loopWrites_failed,
    step_openFile_failed, initState_failed]

lemma runScript_failed_fail (fs0 : String → Option (List Nat)) (cs : List Chunk) :
    (runScript fs0 (StreamOutcome.failAfter cs)).failed = true := by
  simp only [runScript, runTrace, List.foldl_cons, List.foldl_append, List.foldl_nil,
    step_closeFile_failed, step_raise_failed]

lemma filterMap_writeBytesOf_loopWrites (cs : List Chunk) :
    (loopWrites cs).filterMap writeBytesOf = cs.filter chunkTruthy := by
  induction cs with
  | nil => rfl
  | cons c rest ih =>
      by_cases hc : chunkTruthy c <;>
        simp [loopWrites, hc, List.filterMap_cons, List.filterMap_append,
          writeBytesOf, List.filter_cons, ih]

lemma countP_isCloseEvent_loopWrites (cs : List Chunk) :
    (loopWrites cs).countP isCloseEvent = 0 := by
  induction cs with
  | nil => rfl
  | cons c rest ih =>
      by_cases hc : chunkTruthy c <;>
        simp [loopWrites, hc, List.countP_cons, List.countP_append, isCloseEvent, ih]

lemma countP_isCloseEvent_runTrace (o : StreamOutcome) :
    (runTrace o).countP isCloseEvent = 1 := by
  cases o <;>
    simp [runTrace, List.countP_cons, List.countP_append,
      countP_isCloseEvent_loopWrites, isCloseEvent, outputPath]

lemma runTrace_ok_getLast (cs : List Chunk) :
    (runTrace (StreamOutcome.ok cs)).getLast? = some (Event.print confirmMessage) := by
  show (Event.openFile outputPath ::
      (loopWrites cs ++ [Event.closeFile outputPath, Event.print confirmMessage])).getLast?
    = some (Event.print confirmMessage)
  rw [show [Event.closeFile outputPath, Event.print confirmMessage]
        = [Event.closeFile outputPath] ++ [Event.print confirmMessage] from rfl,
    ← List.append_assoc, ← List.cons_append, List.getLast?_concat]

/-! Claim theorems. -/

/-- C1: for every finite sequence of chunks delivered by the synthesis
invocation, possibly with empty chunks interspersed, the byte content of
output.mp3 after the write loop completes equals the concatenation of
exactly the non-empty chunks, in delivery order. -/
theorem C1_output_is_nonempty_concat (fs0 : String → Option (List Nat))
    (cs : List Chunk) :
    (runScript fs0 (StreamOutcome.ok cs)).fs outputPath
      = some (nonEmptyConcat cs) := by
  rw [runScript_fs]
  simp [StreamOutcome.chunks]

/-- C2: if the stream raises after yielding its chunks, the output file
holds exactly the concatenation of the non-empty chunks yielded so far,
the failure propagates uncaught (the run is marked failed, giving a
non-zero exit status), and no message is printed. -/
theorem C2_partial_file_and_failure (fs0 : String → Option (List Nat))
    (cs : List Chunk) :
    (runScript fs0 (StreamOutcome.failAfter cs)).fs outputPath
        = some (nonEmptyConcat cs)
      ∧ (runScript fs0 (StreamOutcome.failAfter cs)).failed = true
      ∧ (runScript fs0 (StreamOutcome.failAfter cs)).stdout = [] := by
  refine ⟨?_, runScript_failed_fail fs0 cs, runScript_stdout_fail fs0 cs⟩
  rw [runScript_fs]
  simp [StreamOutcome.chunks]

/-- C3: the single synthesis request carries exactly the four configured
fields with values identical to the literals in the script, and the
convert boundary applies no transformation to any argument. -/
theorem C3_request_fields_verbatim :
    (∀ v m fmt t : String,
        text_to_speech.convert v m fmt t = SynthesisRequest.mk v m fmt t)
      ∧ scriptRequest
          = SynthesisRequest.mk "JBFqnCBsd6RMkjVDRZzb" "eleven_multilingual_v2"
              "mp3_44100_128"
              "The first move is what sets everything in motion." :=
  ⟨fun _ _ _ _ => rfl, rfl⟩

/-- C4: a second run overwrites rather than appends: starting from the
filesystem left by a first run with chunks cs1, a run with chunks cs2
leaves output.mp3 holding the non-empty concatenation of cs2 only,
independent of cs1. -/
theorem C4_rerun_overwrites (fs0 : String → Option (List Nat))
    (cs1 cs2 : List Chunk) :
    (runScript (runScript fs0 (StreamOutcome.ok cs1)).fs
        (StreamOutcome.ok cs2)).fs outputPath
      = some (nonEmptyConcat cs2) := by
  rw [runScript_fs]
  simp [StreamOutcome.chunks]

/-- C5: the output file handle is closed on every exit path, normal
completion and mid-stream failure alike: the run trace closes the output
file exactly once, after the run no handle remains open, and in every
outcome the partial or full file is left on disk with exactly the bytes
written so far. -/
theorem C5_handle_closed_every_path (fs0 : String → Option (List Nat))
    (o : StreamOutcome) :
    (runScript fs0 o).openFiles = []
      ∧ (runTrace o).countP isCloseEvent = 1
      ∧ (runScript fs0 o).fs outputPath = some (nonEmptyConcat o.chunks) := by
  refine ⟨runScript_openFiles fs0 o, countP_isCloseEvent_runTrace o, ?_⟩
  rw [runScript_fs]
  simp

/-- C6: if the stream yields no chunks, the output file exists after the
run and has length zero. -/
theorem C6_empty_stream_empty_file (fs0 : String → Option (List Nat)) :
    (runScript fs0 (StreamOutcome.ok [])).fs outputPath = some [] := by
  rw [runScript_fs]
  simp [StreamOutcome.chunks, nonEmptyConcat_nil]

/-- C7: the fixed confirmation string is printed exactly once, and only
after the write loop has completed normally: on a normal run the printed
output is exactly the one confirmation line and the print event is the
last event of the trace, after every write; on a failing run nothing is
printed. -/
theorem C7_confirmation_once_after_loop (fs0 : String → Option (List Nat))
    (cs : List Chunk) :
    (runScript fs0 (StreamOutcome.ok cs)).stdout = [confirmMessage]
      ∧ (runTrace (StreamOutcome.ok cs)).getLast?
          = some (Event.print confirmMessage)
      ∧ (runScript fs0 (StreamOutcome.failAfter cs)).stdout = [] :=
  ⟨runScript_stdout_ok fs0 cs, runTrace_ok_getLast cs, runScript_stdout_fail fs0 cs⟩

/-- C8: the only filesystem effect is on the single fixed path
output.mp3: every other path holds, after any run, exactly what it held
before. -/
theorem C8_no_other_path_touched (fs0 : String → Option (List Nat))
    (o : StreamOutcome) (q : String) (h : q ≠ outputPath) :
    (runScript fs0 o).fs q = fs0 q := by
  rw [runScript_fs, if_neg h]

/-- C8 witness: a concrete unrelated path is untouched by a concrete run. -/
theorem C8_no_other_path_touched_witness :
    ("notes.txt" ≠ outputPath)
      ∧ (runScript fsEmpty (StreamOutcome.ok [[1]])).fs "notes.txt"
          = fsEmpty "notes.txt" :=
  ⟨by decide,
    C8_no_other_path_touched fsEmpty (StreamOutcome.ok [[1]]) "notes.txt" (by decide)⟩

/-- C9: the run is deterministic in the delivered chunk sequence: two
runs that receive the same chunks produce identical output-file bytes
and identical printed output, whatever filesystem each started from. -/
theorem C9_deterministic_in_chunks (fs0 fs1 : String → Option (List Nat))
    (cs : List Chunk) :
    (runScript fs0 (StreamOutcome.ok cs)).fs outputPath
        = (runScript fs1 (StreamOutcome.ok cs)).fs outputPath
      ∧ (runScript fs0 (StreamOutcome.ok cs)).stdout
          = (runScript fs1 (StreamOutcome.ok cs)).stdout := by
  constructor
  · rw [runScript_fs, runScript_fs]
    simp
  · rw [runScript_stdout_ok, runScript_stdout_ok]

/-- C10: the write loop consumes each delivered chunk exactly once and in
order: the writes of the whole (finite, hence terminating) trace are
exactly the non-empty chunks in delivery order, with no chunk re-read,
buffered for later, or revisited. -/
theorem C10_each_chunk_written_once (o : StreamOutcome) :
    (runTrace o).filterMap writeBytesOf = o.chunks.filter chunkTruthy := by
  cases o <;>
    simp [runTrace, List.filterMap_cons, List.filterMap_append,
      filterMap_writeBytesOf_loopWrites, writeBytesOf, StreamOutcome.chunks]
